import Mathlib

/-!
Verification of the Travel-AI backend (research orchestrator, scoring engine,
cache layer and WebSocket connection registry) against its natural-language
specification.  Every Python function relevant to a claim is shallowly
embedded as an executable Lean definition: Python floats become rationals,
`datetime` instants become rational numbers of seconds, dictionaries become
records of `Option` fields (a `none` field models an absent key), and a
fallible adapter call becomes a boolean success flag or an `Option` result.
-/

namespace TravelAI

/-! ## Cache — `backend/app/utils/cache.py`

The cache keeps two Python dicts, `store` (key to value) and `expiry`
(key to absolute expiry instant).  Both are modelled as functions returning
`Option`; a key is absent from a dict exactly when the function returns
`none`.  `datetime.now()` is passed in explicitly as a rational number of
seconds, so the methods become pure state transformers. -/

/-- State of one `Cache` instance (`cache.py`, class `Cache`): the `store`
and `expiry` dicts.  `α` is the type of cached values. -/
structure Cache (α : Type) where
  store : String → Option α
  expiry : String → Option ℚ

/-- A freshly constructed `Cache()`: both dicts empty. -/
def Cache.empty {α : Type} : Cache α :=
  ⟨fun _ => none, fun _ => none⟩

/-- `Cache.get` (`cache.py` lines 17-26).  If the key has an expiry record and
`now` is strictly past it, both dict entries are deleted and `None` is
returned; if it has an unexpired record, `store.get(key)` is returned; if it
has no expiry record at all, `None` is returned.  Returns the possibly
mutated cache together with the looked-up value. -/
def Cache.get {α : Type} (c : Cache α) (now : ℚ) (key : String) :
    Cache α × Option α :=
  match c.expiry key with
  | some t =>
    if now > t then
      (⟨fun k => if k = key then none else c.store k,
        fun k => if k = key then none else c.expiry k⟩, none)
    else
      (c, c.store key)
  | none => (c, none)

/-- `Cache.set` (`cache.py` lines 28-31): stores the value and records the
expiry instant `now + ttl_seconds`. -/
def Cache.set {α : Type} (c : Cache α) (now : ℚ) (key : String) (value : α)
    (ttl_seconds : ℚ) : Cache α :=
  ⟨fun k => if k = key then some value else c.store k,
   fun k => if k = key then some (now + ttl_seconds) else c.expiry k⟩

/-- `Cache.delete` (`cache.py` lines 33-36): pops the key from both dicts. -/
def Cache.delete {α : Type} (c : Cache α) (key : String) : Cache α :=
  ⟨fun k => if k = key then none else c.store k,
   fun k => if k = key then none else c.expiry k⟩

/-- C5: cache round-trip.  After `set(k, v, ttl)` at instant `now` with a
positive `ttl`, a `get(k)` at any instant `t` that is not past the recorded
expiry `now + ttl` returns `v`, and a `get(k)` at any instant strictly past
the expiry returns `None` (absent). -/
theorem cache_set_get_roundtrip {α : Type} (c : Cache α) (now t : ℚ)
    (key : String) (v : α) (ttl : ℚ) (httl : 0 < ttl) :
    (t ≤ now + ttl → ((c.set now key v ttl).get t key).2 = some v) ∧
    (now + ttl < t → ((c.set now key v ttl).get t key).2 = none) := by
  constructor
  · intro h
    simp [Cache.get, Cache.set, not_lt.mpr h]
  · intro h
    simp [Cache.get, Cache.set, h]

/-- Closed instance of `cache_set_get_roundtrip`: set at time 0 with a
60-second TTL, read back at time 30 (hit) and at time 61 (expired). -/
theorem cache_set_get_roundtrip_witness :
    (((Cache.empty (α := ℕ)).set 0 "weather:bali" 28 60).get 30 "weather:bali").2
        = some 28 ∧
    (((Cache.empty (α := ℕ)).set 0 "weather:bali" 28 60).get 61 "weather:bali").2
        = none := by
  constructor
  · exact (cache_set_get_roundtrip Cache.empty 0 30 "weather:bali" 28 60
      (by norm_num)).1 (by norm_num)
  · exact (cache_set_get_roundtrip Cache.empty 0 61 "weather:bali" 28 60
      (by norm_num)).2 (by norm_num)

/-! ## Visa scoring — `backend/app/services/visa_service.py`

`calculate_visa_score` reads four fields of the pydantic `Visa` model
(`backend/app/models/destination.py`): `required`, `processing_days`
(`Optional[int]`), `cost_usd` (`Optional[float]`) and `evisa_available`.
The two optional numeric fields are guarded by Python truthiness
(`if visa.processing_days:` / `if visa.cost_usd:`), under which both `None`
and `0` are falsy — this is what decides claim C7. -/

/-- The fields of the `Visa` model that `calculate_visa_score` reads. -/
structure Visa where
  required : Bool
  processing_days : Option ℤ
  cost_usd : Option ℚ
  evisa_available : Bool
deriving DecidableEq

/-- `VisaService.calculate_visa_score` (`visa_service.py` lines 118-159),
translated branch by branch.  The `preference_adjustments` dict maps
`visa_free` and `visa_ok` to 0 and `evisa_ok` to plus or minus 10; `.get`
with default 0 makes every other preference string a 0 adjustment. -/
def calculate_visa_score (visa : Visa) (visa_preference : String) : ℚ :=
  if !visa.required then
    100
  else
    let base1 : ℚ := 30
    let base2 := if visa.evisa_available then base1 + 30 else base1
    let base3 :=
      match visa.processing_days with
      | some d =>
        if d ≠ 0 then
          if d ≤ 1 then base2 + 20
          else if d ≤ 3 then base2 + 10
          else if d ≤ 7 then base2 + 5
          else base2
        else base2
      | none => base2
    let base4 :=
      match visa.cost_usd with
      | some cost =>
        if cost ≠ 0 then base3 + max 0 ((200 - cost) / 200 * 20) else base3
      | none => base3
    let adj : ℚ :=
      if visa_preference = "evisa_ok" then
        if visa.evisa_available then 10 else -10
      else 0
    max 0 (min 100 (base4 + adj))

/-- The visa-score formula exactly as claim C7 words it: a base of 30 with a
processing-time bonus whenever `processing_days ≤ 1 / 3 / 7`, and an
inverse-cost bonus `(200 - cost) / 200 * 20` floored at 0 whenever a cost is
given — with no special treatment of a zero cost or zero processing time.
Used only to compare against the source-derived `calculate_visa_score`. -/
def claimedVisaScore (visa : Visa) (visa_preference : String) : ℚ :=
  if !visa.required then
    100
  else
    let evisaBonus : ℚ := if visa.evisa_available then 30 else 0
    let procBonus : ℚ :=
      match visa.processing_days with
      | some d => if d ≤ 1 then 20 else if d ≤ 3 then 10 else if d ≤ 7 then 5 else 0
      | none => 0
    let costBonus : ℚ :=
      match visa.cost_usd with
      | some cost => max 0 ((200 - cost) / 200 * 20)
      | none => 0
    let adj : ℚ :=
      if visa_preference = "evisa_ok" then
        if visa.evisa_available then 10 else -10
      else 0
    max 0 (min 100 (30 + evisaBonus + procBonus + costBonus + adj))

/-- C7 counterexample: a required visa with an explicit cost of 0 dollars.
The claimed formula awards the full inverse-cost bonus (score 50), but the
code's `if visa.cost_usd:` treats the cost 0 as falsy and skips the bonus
(score 30). -/
theorem calculate_visa_score_zero_cost_counterexample :
    calculate_visa_score ⟨true, none, some 0, false⟩ "visa_free" = 30 ∧
    claimedVisaScore ⟨true, none, some 0, false⟩ "visa_free" = 50 := by
  have hne : ¬ (("visa_free" : String) = "evisa_ok") := by decide
  constructor <;> · simp only [calculate_visa_score, claimedVisaScore]
                    norm_num [hne, min_def, max_def]

/-- The amended C7 formula: identical to `claimedVisaScore` except that the
processing-time bonus requires `processing_days` to be present and nonzero,
and the inverse-cost bonus requires `cost_usd` to be present and nonzero
(Python truthiness). -/
def amendedVisaScore (visa : Visa) (visa_preference : String) : ℚ :=
  if !visa.required then
    100
  else
    let evisaBonus : ℚ := if visa.evisa_available then 30 else 0
    let procBonus : ℚ :=
      match visa.processing_days with
      | some d =>
        if d = 0 then 0
        else if d ≤ 1 then 20 else if d ≤ 3 then 10 else if d ≤ 7 then 5 else 0
      | none => 0
    let costBonus : ℚ :=
      match visa.cost_usd with
      | some cost => if cost = 0 then 0 else max 0 ((200 - cost) / 200 * 20)
      | none => 0
    let adj : ℚ :=
      if visa_preference = "evisa_ok" then
        if visa.evisa_available then 10 else -10
      else 0
    max 0 (min 100 (30 + evisaBonus + procBonus + costBonus + adj))

/-- C7 (amended): for every visa record and preference string the code's
score equals the claim's additive formula, provided the processing-time and
inverse-cost bonuses are read as applying only when the respective field is
present and nonzero; the `evisa_ok` adjustment and the clamp to [0, 100] are
as claimed, and a non-required visa scores exactly 100. -/
theorem calculate_visa_score_eq_amended (visa : Visa) (p : String) :
    calculate_visa_score visa p = amendedVisaScore visa p := by
  obtain ⟨req, pd, cu, ev⟩ := visa
  cases req
  · rfl
  · simp only [calculate_visa_score, amendedVisaScore]
    have harg :
        (let base1 : ℚ := 30
         let base2 := if ev then base1 + 30 else base1
         let base3 :=
           match pd with
           | some d =>
             if d ≠ 0 then
               if d ≤ 1 then base2 + 20
               else if d ≤ 3 then base2 + 10
               else if d ≤ 7 then base2 + 5
               else base2
             else base2
           | none => base2
         match cu with
         | some cost =>
           if cost ≠ 0 then base3 + max 0 ((200 - cost) / 200 * 20) else base3
         | none => base3) =
        (30 + (if ev then (30 : ℚ) else 0)
          + (match pd with
             | some d =>
               if d = 0 then (0 : ℚ)
               else if d ≤ 1 then 20 else if d ≤ 3 then 10 else if d ≤ 7 then 5 else 0
             | none => 0)
          + (match cu with
             | some cost => if cost = 0 then (0 : ℚ) else max 0 ((200 - cost) / 200 * 20)
             | none => 0)) := by
      cases ev <;> rcases pd with _ | d <;> rcases cu with _ | c <;>
        simp only [] <;> split_ifs
      all_goals (first | ring1 | tauto)
    simp only [] at harg ⊢
    rw [harg]

/-! ## Scoring engine — `backend/app/utils/scoring.py` and the sub-score
functions of `weather_service.py`, `affordability_service.py`,
`attractions_service.py`.

The pydantic models (`backend/app/models/destination.py`,
`backend/app/models/user.py`) are embedded with exactly the fields the
scoring functions read.  Python `str.lower` substring tests (`"beach" in
a.type.lower()`) are modelled by `strContains` on character lists. -/

/-- Python's `needle in hay` on strings: substring containment. -/
def strContains (hay needle : String) : Bool :=
  decide (needle.toList <:+: hay.toList)

/-- `Weather` model fields read by `calculate_weather_score`. -/
structure Weather where
  condition : String
  temperature : ℚ
deriving DecidableEq

/-- `Attraction` model fields read by the scoring functions.  The pydantic
model constrains `rating` to [0, 5]; the constraint is carried as a
hypothesis where a proof needs it. -/
structure Attraction where
  type : String
  rating : ℚ
  description : String
  natural_feature : Bool
deriving DecidableEq

/-- The `Interest` enum of `models/user.py`. -/
inductive Interest
  | nature | culture | adventure | relaxation | food | nightlife
  | shopping | history | art | beaches | mountains | wildlife
deriving DecidableEq

/-- `Interest.value`: the string payload of each enum member. -/
def Interest.value : Interest → String
  | .nature => "nature"
  | .culture => "culture"
  | .adventure => "adventure"
  | .relaxation => "relaxation"
  | .food => "food"
  | .nightlife => "nightlife"
  | .shopping => "shopping"
  | .history => "history"
  | .art => "art"
  | .beaches => "beaches"
  | .mountains => "mountains"
  | .wildlife => "wildlife"

/-- The `EventType` enum of `models/destination.py`. -/
inductive EventType
  | music | theatre | film | sports | festival | cultural | food | art
deriving DecidableEq

/-- `Event` model field read by the scoring functions. -/
structure Event where
  type : EventType
deriving DecidableEq

/-- `Affordability` model fields read by the scoring functions. -/
structure Affordability where
  cost_level : String
  daily_cost_estimate : ℚ
deriving DecidableEq

/-- `UserPreferences` fields read by `calculate_destination_score`.  The
pydantic model constrains `budget_daily` with `gt=0`; `travel_style` is the
enum's string value. -/
structure UserPreferences where
  budget_daily : ℚ
  travel_style : String
  interests : List Interest
  preferred_weather : Option String
  visa_preference : String

/-- `Destination` model fields read by `calculate_destination_score`. -/
structure Destination where
  weather : Option Weather
  affordability : Option Affordability
  visa : Option Visa
  attractions : List Attraction
  events : List Event

/-- `WeatherService.calculate_weather_score` (`weather_service.py` lines
162-205): base 50, a temperature band adjustment, a condition adjustment
table, +10 when the user's preference category matches, clamped to
[0, 100].  A `None` preference and the empty string both mean no
preference bonus (in the source the empty string falls through
`pref_map.get`, which returns `False`). -/
def calculate_weather_score (weather : Weather)
    (preferred_weather : Option String) : ℚ :=
  let temp := weather.temperature
  let s1 : ℚ := 50 +
    (if 20 ≤ temp ∧ temp ≤ 28 then 25
     else if (15 ≤ temp ∧ temp < 20) ∨ (28 < temp ∧ temp ≤ 32) then 10
     else if (5 ≤ temp ∧ temp < 15) ∨ (32 < temp ∧ temp ≤ 35) then -10
     else -25)
  let condition_scores : List (String × ℚ) :=
    [("Clear", 15), ("Clouds", 5), ("Rain", -15), ("Snow", -5),
     ("Thunderstorm", -25), ("Drizzle", -10), ("Mist", -5)]
  let s2 := s1 + ((condition_scores.lookup weather.condition).getD 0)
  let s3 :=
    match preferred_weather with
    | some pref =>
      let prefMatch : Bool :=
        if pref = "hot" then temp > 30
        else if pref = "warm" then 25 ≤ temp ∧ temp ≤ 30
        else if pref = "mild" then 15 ≤ temp ∧ temp < 25
        else if pref = "cold" then 5 ≤ temp ∧ temp < 15
        else if pref = "snowy" then weather.condition = "Snow"
        else false
      if prefMatch then s2 + 10 else s2
    | none => s2
  max 0 (min 100 s3)

/-- `AffordabilityService.calculate_affordability_score`
(`affordability_service.py` lines 143-183): a budget-fit score from the
ratio of daily cost to daily budget, plus a travel-style alignment from a
fixed style-by-cost-level matrix, clamped to [0, 100]. -/
def calculate_affordability_score (affordability : Affordability)
    (user_budget_daily : ℚ) (travel_style : String) : ℚ :=
  let daily_cost := affordability.daily_cost_estimate
  let budget_score : ℚ :=
    if daily_cost ≤ user_budget_daily * (8 / 10) then
      90 + min ((user_budget_daily - daily_cost) / user_budget_daily * 10) 10
    else if daily_cost ≤ user_budget_daily then 80
    else if daily_cost ≤ user_budget_daily * (12 / 10) then 60
    else if daily_cost ≤ user_budget_daily * (15 / 10) then 40
    else 20
  let style_alignment : List (String × List (String × ℚ)) :=
    [("budget", [("budget", 20), ("moderate", 5), ("comfort", -10), ("luxury", -20)]),
     ("moderate", [("budget", 5), ("moderate", 20), ("comfort", 10), ("luxury", -10)]),
     ("comfort", [("budget", -10), ("moderate", 10), ("comfort", 20), ("luxury", 5)]),
     ("luxury", [("budget", -20), ("moderate", -10), ("comfort", 10), ("luxury", 20)])]
  let style_score :=
    (((style_alignment.lookup travel_style).getD []).lookup
      affordability.cost_level).getD 0
  max 0 (min 100 (budget_score + style_score))

/-- `AttractionsService.calculate_attractions_score`
(`attractions_service.py` lines 297-338): 20 with no attraction data,
otherwise quantity (4 per attraction, capped 20) + quality (average
rating / 5 × 30) + interest alignment (natural/cultural shares × 25 each,
capped 50; 40 with no interests), capped at 100. -/
def calculate_attractions_score (attractions : List Attraction)
    (interests : List String) : ℚ :=
  if attractions = [] then 20
  else
    let quantity_score : ℚ := min ((attractions.length : ℚ) * 4) 20
    let avg_rating := (attractions.map (·.rating)).sum / (attractions.length : ℚ)
    let quality_score := avg_rating / 5 * 30
    let interest_score : ℚ :=
      if interests ≠ [] then
        let natural_interests := ["nature", "beaches", "mountains", "wildlife", "adventure"]
        let cultural_interests := ["culture", "history", "art"]
        let natural_count : ℚ :=
          ((attractions.filter (·.natural_feature)).length : ℚ)
        let cultural_count : ℚ := (attractions.length : ℚ) - natural_count
        let has_natural := interests.any (fun i => natural_interests.contains i)
        let has_cultural := interests.any (fun i => cultural_interests.contains i)
        let raw : ℚ :=
          (if has_natural then natural_count / (attractions.length : ℚ) * 25 else 0)
          + (if has_cultural then cultural_count / (attractions.length : ℚ) * 25 else 0)
        min raw 50
      else 40
    min 100 (quantity_score + quality_score + interest_score)

/-- The `interest_mappings` table of `calculate_interest_alignment`
(`scoring.py` lines 102-115): for one interest, the integer match strength
computed from the destination's attractions, events and affordability.
Every lambda of the source guards against empty data but the guarded and
unguarded counts coincide (an empty list counts 0). -/
def interestMatchStrength (d : Destination) : Interest → ℕ
  | .nature => (d.attractions.filter (·.natural_feature)).length
  | .beaches => (d.attractions.filter (fun a => strContains a.type.toLower "beach")).length
  | .mountains => (d.attractions.filter (fun a =>
      strContains a.type.toLower "mountain" || strContains a.type.toLower "hiking")).length
  | .culture => (d.attractions.filter (fun a => !a.natural_feature)).length
  | .history => (d.attractions.filter (fun a =>
      a.type = "landmark" ∨ a.type = "museum")).length
  | .art => (d.attractions.filter (fun a => a.type = "museum")).length
  | .adventure => (d.attractions.filter (fun a =>
      a.type = "hiking_area" ∨ a.type = "waterfall" ∨ a.type = "national_park")).length
  | .relaxation =>
    match d.affordability with
    | some aff => if aff.cost_level = "budget" ∨ aff.cost_level = "moderate" then 1 else 0
    | none => 0
  | .food => 1
  | .nightlife => (d.events.filter (fun e => e.type = EventType.music)).length
  | .shopping => 1
  | .wildlife => (d.attractions.filter (fun a =>
      strContains a.description.toLower "wildlife" || strContains a.type.toLower "nature")).length

/-- `calculate_interest_alignment` (`scoring.py` lines 88-127): 50 with no
interests; otherwise each interest contributes 20 to the attainable
maximum and 20 / 10 / 0 to the score depending on its match strength, and
the result is the percentage, capped at 100. -/
def calculate_interest_alignment (destination : Destination)
    (interests : List Interest) : ℚ :=
  if interests = [] then 50
  else
    let score : ℕ := (interests.map (fun i =>
      let m := interestMatchStrength destination i
      if m ≥ 3 then 20 else if m ≥ 1 then 10 else 0)).sum
    let max_possible : ℕ := 20 * interests.length
    min 100 ((score : ℚ) / (max_possible : ℚ) * 100)

/-- The events sub-score computed inline by `calculate_destination_score`
(`scoring.py` lines 62-65): 10 per event capped at 100, or 30 with no
events. -/
def events_score (events : List Event) : ℚ :=
  if events ≠ [] then min ((events.length : ℚ) * 10) 100 else 30

/-- The scores dict returned by `calculate_destination_score`: the six
sub-scores and the weighted `overall`. -/
structure Scores where
  weather : ℚ
  affordability : ℚ
  visa : ℚ
  attractions : ℚ
  events : ℚ
  interest_alignment : ℚ
  overall : ℚ

/-- Python `round(x, 1)`: rounding to one decimal place.  Mathlib's `round`
breaks ties upward where Python breaks them to even; both stay within 1/20
of the argument, which is all the specification demands. -/
def round1 (q : ℚ) : ℚ := ((round (q * 10) : ℤ) : ℚ) / 10

/-- `calculate_destination_score` (`scoring.py` lines 6-86): each sub-score
comes from the matching service when the data field is populated and is a
neutral default otherwise, and `overall` is the weighted sum rounded to one
decimal place with the fixed weights 0.20 / 0.25 / 0.15 / 0.20 / 0.10 /
0.10 (the dict iteration order of the source). -/
def calculate_destination_score (destination : Destination)
    (preferences : UserPreferences) : Scores :=
  let weather_score :=
    match destination.weather with
    | some w => calculate_weather_score w preferences.preferred_weather
    | none => 50
  let affordability_score :=
    match destination.affordability with
    | some a => calculate_affordability_score a preferences.budget_daily
        preferences.travel_style
    | none => 50
  let visa_score :=
    match destination.visa with
    | some v => calculate_visa_score v preferences.visa_preference
    | none => 50
  let attractions_score :=
    if destination.attractions ≠ [] then
      calculate_attractions_score destination.attractions
        (preferences.interests.map Interest.value)
    else 50
  let ev_score := events_score destination.events
  let interest_alignment :=
    calculate_interest_alignment destination preferences.interests
  let overall :=
    weather_score * (20 / 100) + affordability_score * (25 / 100)
    + visa_score * (15 / 100) + attractions_score * (20 / 100)
    + ev_score * (10 / 100) + interest_alignment * (10 / 100)
  ⟨weather_score, affordability_score, visa_score, attractions_score,
   ev_score, interest_alignment, round1 overall⟩

/-- Rounding to one decimal place moves a rational by at most 1/20. -/
theorem round1_close (q : ℚ) : |round1 q - q| ≤ 1 / 20 := by
  have h := abs_sub_round (q * 10)
  rw [abs_sub_comm] at h
  have heq : round1 q - q = (((round (q * 10) : ℤ) : ℚ) - q * 10) / 10 := by
    rw [round1]; ring
  rw [heq, abs_div]
  rw [show |(10 : ℚ)| = 10 by norm_num]
  linarith

/-- C3: in every scores map produced by `calculate_destination_score`, the
`overall` entry is the weighted sum of the six sub-scores with the fixed
weights 0.20, 0.25, 0.15, 0.20, 0.10, 0.10 (which sum to 1), rounded to one
decimal place — hence within 1/20 of the exact weighted sum. -/
theorem overall_eq_weighted_sum (d : Destination) (p : UserPreferences) :
    (calculate_destination_score d p).overall =
      round1 ((calculate_destination_score d p).weather * (20 / 100)
        + (calculate_destination_score d p).affordability * (25 / 100)
        + (calculate_destination_score d p).visa * (15 / 100)
        + (calculate_destination_score d p).attractions * (20 / 100)
        + (calculate_destination_score d p).events * (10 / 100)
        + (calculate_destination_score d p).interest_alignment * (10 / 100)) ∧
    |(calculate_destination_score d p).overall -
      ((calculate_destination_score d p).weather * (20 / 100)
        + (calculate_destination_score d p).affordability * (25 / 100)
        + (calculate_destination_score d p).visa * (15 / 100)
        + (calculate_destination_score d p).attractions * (20 / 100)
        + (calculate_destination_score d p).events * (10 / 100)
        + (calculate_destination_score d p).interest_alignment * (10 / 100))|
      ≤ 1 / 20 ∧
    (20 : ℚ) / 100 + 25 / 100 + 15 / 100 + 20 / 100 + 10 / 100 + 10 / 100 = 1 := by
  refine ⟨rfl, ?_, by norm_num⟩
  exact round1_close _

/-- The clamp `max(0, min(100, x))` used by several sub-score functions
always lands in [0, 100]. -/
theorem clamp01_bounds (x : ℚ) : 0 ≤ max 0 (min 100 x) ∧ max 0 (min 100 x) ≤ 100 :=
  ⟨le_max_left _ _, max_le (by norm_num) (min_le_left _ _)⟩

/-- The weather sub-score is clamped to [0, 100]. -/
theorem calculate_weather_score_bounds (w : Weather) (pw : Option String) :
    0 ≤ calculate_weather_score w pw ∧ calculate_weather_score w pw ≤ 100 :=
  clamp01_bounds _

/-- The affordability sub-score is clamped to [0, 100].  The positivity of
the daily budget mirrors the pydantic constraint `budget_daily > 0` (with a
zero budget the Python source would instead raise `ZeroDivisionError` on
the well-within-budget branch). -/
theorem calculate_affordability_score_bounds (a : Affordability) (b : ℚ)
    (style : String) (hb : 0 < b) :
    0 ≤ calculate_affordability_score a b style ∧
      calculate_affordability_score a b style ≤ 100 :=
  clamp01_bounds _

/-- The visa sub-score lies in [0, 100]: 100 when no visa is required,
otherwise the clamped additive score. -/
theorem calculate_visa_score_bounds (v : Visa) (p : String) :
    0 ≤ calculate_visa_score v p ∧ calculate_visa_score v p ≤ 100 := by
  obtain ⟨req, pd, cu, ev⟩ := v
  cases req
  · exact ⟨by norm_num [calculate_visa_score], by norm_num [calculate_visa_score]⟩
  · exact clamp01_bounds _

/-- The attractions sub-score lies in [0, 100] whenever every rating is
non-negative (the pydantic model constrains ratings to [0, 5]). -/
theorem calculate_attractions_score_bounds (attractions : List Attraction)
    (interests : List String) (hr : ∀ a ∈ attractions, 0 ≤ a.rating) :
    0 ≤ calculate_attractions_score attractions interests ∧
      calculate_attractions_score attractions interests ≤ 100 := by
  by_cases hA : attractions = []
  · constructor <;> norm_num [calculate_attractions_score, hA]
  · have hlen : (0 : ℚ) < (attractions.length : ℚ) := by
      have := List.length_pos.mpr hA
      exact_mod_cast this
    have hq : (0 : ℚ) ≤ min ((attractions.length : ℚ) * 4) 20 :=
      le_min (by positivity) (by norm_num)
    have hsum : (0 : ℚ) ≤ (attractions.map (·.rating)).sum := by
      apply List.sum_nonneg
      intro x hx
      obtain ⟨a, ha, rfl⟩ := List.mem_map.mp hx
      exact hr a ha
    have hqual : (0 : ℚ) ≤
        (attractions.map (·.rating)).sum / (attractions.length : ℚ) / 5 * 30 := by
      positivity
    have hcul : (0 : ℚ) ≤ (attractions.length : ℚ)
        - ((attractions.filter (·.natural_feature)).length : ℚ) := by
      have : ((attractions.filter (·.natural_feature)).length : ℚ)
          ≤ (attractions.length : ℚ) := by
        exact_mod_cast List.length_filter_le _ attractions
      linarith
    constructor
    · show (0 : ℚ) ≤ calculate_attractions_score attractions interests
      simp only [calculate_attractions_score, if_neg hA]
      refine le_min (by norm_num) ?_
      refine add_nonneg (add_nonneg hq hqual) ?_
      split_ifs
      all_goals try norm_num
      all_goals
        first
        | (norm_num; done)
        | positivity
        | (refine add_nonneg (by positivity) ?_
           exact mul_nonneg (div_nonneg hcul (by positivity)) (by norm_num))
    · show calculate_attractions_score attractions interests ≤ 100
      simp only [calculate_attractions_score, if_neg hA]
      exact min_le_left _ _

/-- The events sub-score of `calculate_destination_score` lies in
[0, 100]. -/
theorem events_score_bounds (evs : List Event) :
    0 ≤ events_score evs ∧ events_score evs ≤ 100 := by
  by_cases h : evs = []
  · constructor <;> norm_num [events_score, h]
  · simp only [events_score]
    rw [if_pos h]
    exact ⟨le_min (by positivity) (by norm_num), min_le_right _ _⟩

/-- The interest-alignment sub-score lies in [0, 100]. -/
theorem calculate_interest_alignment_bounds (d : Destination)
    (interests : List Interest) :
    0 ≤ calculate_interest_alignment d interests ∧
      calculate_interest_alignment d interests ≤ 100 := by
  by_cases h : interests = []
  · constructor <;> norm_num [calculate_interest_alignment, h]
  · simp only [calculate_interest_alignment, if_neg h]
    exact ⟨le_min (by norm_num) (by positivity), min_le_left _ _⟩

/-- C8: every scoring-engine sub-score function — weather, affordability,
visa, attractions, events, interest alignment — returns a value in
[0, 100], for every input satisfying the pydantic model constraints
(positive daily budget, attraction ratings at least 0). -/
theorem all_subscores_in_range (w : Weather) (pw : Option String)
    (a : Affordability) (b : ℚ) (style : String)
    (v : Visa) (vp : String)
    (attrs : List Attraction) (ints : List String)
    (d : Destination) (uints : List Interest) (evs : List Event)
    (hb : 0 < b) (hr : ∀ x ∈ attrs, 0 ≤ x.rating) :
    (0 ≤ calculate_weather_score w pw ∧ calculate_weather_score w pw ≤ 100) ∧
    (0 ≤ calculate_affordability_score a b style ∧
      calculate_affordability_score a b style ≤ 100) ∧
    (0 ≤ calculate_visa_score v vp ∧ calculate_visa_score v vp ≤ 100) ∧
    (0 ≤ calculate_attractions_score attrs ints ∧
      calculate_attractions_score attrs ints ≤ 100) ∧
    (0 ≤ events_score evs ∧ events_score evs ≤ 100) ∧
    (0 ≤ calculate_interest_alignment d uints ∧
      calculate_interest_alignment d uints ≤ 100) :=
  ⟨calculate_weather_score_bounds w pw,
   calculate_affordability_score_bounds a b style hb,
   calculate_visa_score_bounds v vp,
   calculate_attractions_score_bounds attrs ints hr,
   events_score_bounds evs,
   calculate_interest_alignment_bounds d uints⟩

/-- Closed instance of `all_subscores_in_range` at concrete data: a clear
25-degree forecast, a 50-dollar daily cost against a 100-dollar budget, a
visa-free record, no attractions, no events, no interests. -/
theorem all_subscores_in_range_witness :
    (0 ≤ calculate_weather_score ⟨"Clear", 25⟩ none ∧
      calculate_weather_score ⟨"Clear", 25⟩ none ≤ 100) ∧
    (0 ≤ calculate_affordability_score ⟨"budget", 50⟩ 100 "budget" ∧
      calculate_affordability_score ⟨"budget", 50⟩ 100 "budget" ≤ 100) ∧
    (0 ≤ calculate_visa_score ⟨false, none, none, false⟩ "visa_free" ∧
      calculate_visa_score ⟨false, none, none, false⟩ "visa_free" ≤ 100) ∧
    (0 ≤ calculate_attractions_score [] [] ∧
      calculate_attractions_score [] [] ≤ 100) ∧
    (0 ≤ events_score [] ∧ events_score [] ≤ 100) ∧
    (0 ≤ calculate_interest_alignment ⟨none, none, none, [], []⟩ [] ∧
      calculate_interest_alignment ⟨none, none, none, [], []⟩ [] ≤ 100) :=
  all_subscores_in_range ⟨"Clear", 25⟩ none ⟨"budget", 50⟩ 100 "budget"
    ⟨false, none, none, false⟩ "visa_free" [] [] ⟨none, none, none, [], []⟩ [] []
    (by norm_num) (by simp)

/-! ## Connection registry — `backend/app/api/websocket_routes.py`

`ConnectionManager.send_to_job` iterates over the set of WebSocket
connections subscribed to a job; a `send_json` that raises puts the
connection into a local `disconnected` set, and after the loop every
collected connection is discarded from the job's subscriber set.
Connections are identified by natural numbers; `broken c = true` models a
connection whose `send_json` raises.  The Python `set` of subscribers is
modelled as a list (the claims proved below do not depend on iteration
order). -/

/-- The job-scope state of `ConnectionManager`: the `job_connections` dict
mapping a job id to its subscriber set (`none` models an absent key). -/
structure ConnectionManager where
  job_connections : String → Option (List ℕ)

/-- The delivery loop of `send_to_job` (`websocket_routes.py` lines 66-71):
walks the subscriber list, collecting successful deliveries (first
component) and raising connections (second component, the `disconnected`
set). -/
def sendPass (broken : ℕ → Bool) : List ℕ → List ℕ × List ℕ
  | [] => ([], [])
  | c :: rest =>
    let p := sendPass broken rest
    if broken c then (p.1, c :: p.2) else (c :: p.1, p.2)

/-- `ConnectionManager.send_to_job` (`websocket_routes.py` lines 61-75):
returns early when the job id has no subscriber entry; otherwise runs the
delivery loop and then discards every collected `disconnected` connection
from the job's subscriber set.  The second component is the list of
connections the message was delivered to. -/
def send_to_job (m : ConnectionManager) (broken : ℕ → Bool) (job_id : String) :
    ConnectionManager × List ℕ :=
  match m.job_connections job_id with
  | none => (m, [])
  | some conns =>
    let p := sendPass broken conns
    (⟨fun j => if j = job_id
        then some (conns.filter (fun c => !(p.2.contains c)))
        else m.job_connections j⟩,
     p.1)

/-- The delivery loop partitions the subscriber list by `broken`. -/
theorem sendPass_eq_filter (broken : ℕ → Bool) (l : List ℕ) :
    sendPass broken l = (l.filter (fun c => !(broken c)), l.filter broken) := by
  induction l with
  | nil => rfl
  | cons c rest ih =>
    simp only [sendPass, ih, List.filter]
    cases h : broken c <;> simp [h]

/-- After `send_to_job`, the subscriber set keeps exactly the non-broken
connections. -/
theorem send_to_job_filter (m : ConnectionManager) (broken : ℕ → Bool)
    (job_id : String) (conns : List ℕ)
    (hc : m.job_connections job_id = some conns) :
    (send_to_job m broken job_id).1.job_connections job_id
        = some (conns.filter (fun c => !(broken c))) ∧
    (send_to_job m broken job_id).2 = conns.filter (fun c => !(broken c)) := by
  constructor
  · simp only [send_to_job, hc, eq_self_iff_true, if_true, Option.some.injEq]
    apply List.filter_congr
    intro c hcmem
    rw [sendPass_eq_filter]
    cases h : broken c <;> simp [List.contains, h, hcmem, List.mem_filter]
  · simp only [send_to_job, hc, sendPass_eq_filter]

/-- C6: with one broken subscriber among the distinct connections
subscribed to a job, `send_to_job` delivers to the other N−1 connections
(each non-broken connection receives it, and the delivered count is
exactly N−1), removes the broken connection from the job's subscriber set,
and keeps every other subscriber — the send errors are swallowed inside
the loop and never reach the publisher. -/
theorem send_to_job_isolates_broken (m : ConnectionManager) (job_id : String)
    (conns : List ℕ) (b : ℕ)
    (hc : m.job_connections job_id = some conns)
    (hnd : conns.Nodup) (hb : b ∈ conns) :
    (send_to_job m (fun c => c == b) job_id).2.length = conns.length - 1 ∧
    (∀ c ∈ conns, c ≠ b → c ∈ (send_to_job m (fun c => c == b) job_id).2) ∧
    (send_to_job m (fun c => c == b) job_id).1.job_connections job_id
        = some (conns.filter (fun c => !(c == b))) ∧
    b ∉ conns.filter (fun c => !(c == b)) ∧
    (∀ c ∈ conns, c ≠ b → c ∈ conns.filter (fun c => !(c == b))) := by
  obtain ⟨hset, hsent⟩ := send_to_job_filter m (fun c => c == b) job_id conns hc
  have hfb : conns.filter (fun c => !(c == b)) = conns.erase b := by
    rw [List.Nodup.erase_eq_filter hnd]
    apply List.filter_congr
    intro c _
    simp [bne]
  refine ⟨?_, ?_, hset, ?_, ?_⟩
  · rw [hsent, hfb, List.length_erase_of_mem hb]
  · intro c hcmem hne
    rw [hsent]
    simp [List.mem_filter, hcmem, hne]
  · simp [List.mem_filter]
  · intro c hcmem hne
    simp [List.mem_filter, hcmem, hne]

/-- Closed instance of `send_to_job_isolates_broken`: three subscribers
{1, 2, 3} to job `"j"`, connection 2 broken. -/
theorem send_to_job_isolates_broken_witness :
    (send_to_job ⟨fun j => if j = "j" then some [1, 2, 3] else none⟩
        (fun c => c == 2) "j").2.length = 2 ∧
    (send_to_job ⟨fun j => if j = "j" then some [1, 2, 3] else none⟩
        (fun c => c == 2) "j").1.job_connections "j" = some [1, 3] := by
  have h := send_to_job_isolates_broken
    ⟨fun j => if j = "j" then some [1, 2, 3] else none⟩ "j" [1, 2, 3] 2
    (by simp) (by decide) (by decide)
  refine ⟨h.1, ?_⟩
  rw [h.2.2.1]
  rfl

/-! ## Research orchestrator — `backend/app/services/auto_research_agent.py`

Definitions in this namespace embed the methods of `AutoResearchAgent`;
the leading underscore of the Python method names is kept. -/

namespace AutoResearch

/-! ### Progress reporting (`_update_progress`, claim C1) -/

/-- The `progress_data` dict passed to every progress callback. -/
structure ProgressData where
  step : String
  completed_steps : ℕ
  total_steps : ℕ
  percentage : ℕ
deriving DecidableEq

/-- The agent's progress counters, set in `__init__` (lines 85-89):
`_completed_steps = 0`, `_total_steps = 9`. -/
structure AgentState where
  completed_steps : ℕ
  total_steps : ℕ
deriving DecidableEq

/-- The counters of a freshly constructed agent. -/
def initialAgentState : AgentState := ⟨0, 9⟩

/-- `_update_progress` (lines 95-128): increments `_completed_steps` by 1,
computes `percentage = min(100, int(completed / total * 100))` and returns
the new state with the callback payload.  (Python computes the percentage
by float division and `int` truncation; natural floor division agrees on
every reachable value and the only fact used below is the cap at 100.) -/
def _update_progress (s : AgentState) (step : String) : AgentState × ProgressData :=
  let c := s.completed_steps + 1
  let percentage := min 100 (c * 100 / s.total_steps)
  (⟨c, s.total_steps⟩, ⟨step, c, s.total_steps, percentage⟩)

/-- The sequence of callback payloads produced by issuing
`_update_progress` once per label, threading the agent state. -/
def progressTrace (s : AgentState) : List String → List ProgressData
  | [] => []
  | st :: rest =>
    let r := _update_progress s st
    r.2 :: progressTrace r.1 rest

/-- The step labels `_research_single_destination` emits for one
destination (lines 324-434): weather, visa, attractions, affordability
always; flights only when an origin was given; nightlife only when
triggered; web only when the Brave key is configured. -/
def destStepLabels (hasOrigin nightlifeOn webOn : Bool) : List String :=
  ["researching_weather", "researching_visa", "researching_attractions",
   "researching_affordability"]
  ++ (if hasOrigin then ["researching_flights"] else [])
  ++ ["researching_restaurants", "researching_transport"]
  ++ (if nightlifeOn then ["researching_nightlife"] else [])
  ++ (if webOn then ["researching_web"] else [])

/-- The step labels of one full successful `research_from_preferences` run
(lines 144-229): `initializing`, the optional suggestion step, the
per-destination labels for each researched destination, then
`compiling_results` and `completed`.  The concurrent fan-out may interleave
the destination blocks, but every interleaving is a permutation with the
same length, and each callback's counters depend only on its position. -/
def runStepLabels (numDestinations : ℕ)
    (suggest hasOrigin nightlifeOn webOn : Bool) : List String :=
  ["initializing"]
  ++ (if suggest then ["analyzing_preferences"] else [])
  ++ (List.replicate numDestinations (destStepLabels hasOrigin nightlifeOn webOn)).flatten
  ++ ["compiling_results", "completed"]

/-- Positioned payload of a progress trace: the i-th callback carries
`completed_steps = initial + i + 1` and the unchanged `total_steps`, with
the percentage capped at 100. -/
theorem progressTrace_get (labels : List String) (s : AgentState) (i : ℕ)
    (p : ProgressData)
    (hp : (progressTrace s labels).get? i = some p) :
    p.completed_steps = s.completed_steps + i + 1 ∧
    p.total_steps = s.total_steps ∧ p.percentage ≤ 100 := by
  induction labels generalizing s i with
  | nil => simp [progressTrace] at hp
  | cons st rest ih =>
    cases i with
    | zero =>
      simp only [progressTrace, List.get?] at hp
      cases hp
      exact ⟨rfl, rfl, min_le_left _ _⟩
    | succ n =>
      simp only [progressTrace, List.get?] at hp
      have h := ih _ _ hp
      simp only [_update_progress] at h
      obtain ⟨h1, h2, h3⟩ := h
      refine ⟨?_, h2, h3⟩
      omega

/-- C1 (amended): over the callbacks of any run, `completed_steps` starts
at 1 and increases by exactly 1 per callback (the i-th callback reports
`i + 1`), `total_steps` is the constant 9, and `percentage` never exceeds
100 — but `completed_steps` itself is *not* bounded by `total_steps` (see
the counterexample). -/
theorem progress_monotone_unit_steps (labels : List String) (i : ℕ)
    (p : ProgressData)
    (hp : (progressTrace initialAgentState labels).get? i = some p) :
    p.completed_steps = i + 1 ∧ p.total_steps = 9 ∧ p.percentage ≤ 100 := by
  simpa [initialAgentState] using progressTrace_get labels initialAgentState i p hp

/-- Closed instance of `progress_monotone_unit_steps`: the first callback
of a run reports step 1 of 9. -/
theorem progress_monotone_unit_steps_witness :
    (progressTrace initialAgentState ["initializing"]).get? 0 =
      some ⟨"initializing", 1, 9, 11⟩ ∧
    ((1 : ℕ) = 0 + 1 ∧ (9 : ℕ) = 9 ∧ (11 : ℕ) ≤ 100) :=
  ⟨rfl, progress_monotone_unit_steps ["initializing"] 0 ⟨"initializing", 1, 9, 11⟩ rfl⟩

/-- C1 counterexample: a run over two destinations (no optional steps)
makes 15 callbacks against the fixed `total_steps = 9`; its 10th callback
reports `completed_steps = 10 > 9 = total_steps`, so `completed_steps`
does exceed the `total_steps` reported in the same callback. -/
theorem progress_exceeds_total_counterexample :
    (progressTrace initialAgentState
        (runStepLabels 2 false false false false)).get? 9 =
      some ⟨"researching_attractions", 10, 9, 100⟩ ∧
    ¬ ((10 : ℕ) ≤ 9) := by
  exact ⟨rfl, by norm_num⟩

/-! ### Per-destination research (`_research_single_destination`, claim C2)

The body of `_research_single_destination` (lines 324-441) is one `try`
block covering every category phase; phases run in the fixed order below,
`asyncio.gather` groups attractions+events and flights+hotels into atomic
pairs (an exception in either member leaves both keys unset), and the
`except` arm sets `status = "partial"` and records the error.  Only the
web-research phase has its own inner `try`, so its failure cannot abort
the rest.  An adapter call is modelled by a success flag per category. -/

/-- The category keys of the destination's `data` dict. -/
inductive Category
  | weather | visa | attractions | events | affordability
  | flights | hotels | restaurants | transport | nightlife
  | context | web_research
deriving DecidableEq

/-- The phases of the shared `try` block, in source order; each inner list
is fetched atomically (`asyncio.gather`).  `flights` is only awaited (and
its key only set) when an origin was given. -/
def destGroups (hasOrigin nightlifeOn : Bool) : List (List Category) :=
  [[Category.weather], [Category.visa],
   [Category.attractions, Category.events], [Category.affordability]]
  ++ [if hasOrigin then [Category.flights, Category.hotels] else [Category.hotels]]
  ++ [[Category.restaurants], [Category.transport]]
  ++ (if nightlifeOn then [[Category.nightlife]] else [])

/-- The outcome of researching one destination: the keys present in its
`data` dict (in insertion order), its `status` string, and whether an
`error` entry was recorded. -/
structure DestOutcome where
  dataKeys : List Category
  status : String
  hasError : Bool
deriving DecidableEq

/-- Runs the phases of the shared `try` block in order: each fully
successful phase appends its keys; the first failing phase raises, keeping
the keys gathered so far and reporting failure. -/
def runGroups (fetch : Category → Bool) : List (List Category) → List Category × Bool
  | [] => ([], true)
  | g :: rest =>
    if g.all fetch then
      let r := runGroups fetch rest
      (g ++ r.1, r.2)
    else ([], false)

/-- `_research_single_destination` at the granularity of claim C2: on a
clean pass the destination gains all phase keys plus `context` (and
`web_research` when enabled and successful) and ends `completed`; when any
phase raises, the `except` arm leaves the keys gathered so far, sets
`status = "partial"` and records the error string. -/
def _research_single_destination (fetch : Category → Bool)
    (hasOrigin nightlifeOn webOn : Bool) : DestOutcome :=
  let r := runGroups fetch (destGroups hasOrigin nightlifeOn)
  if r.2 then
    ⟨r.1 ++ [Category.context]
      ++ (if webOn && fetch Category.web_research then [Category.web_research] else []),
     "completed", false⟩
  else
    ⟨r.1, "partial", true⟩

/-- `runGroups` keeps exactly the phases up to the first failure and
reports whether every phase succeeded. -/
theorem runGroups_eq (fetch : Category → Bool) (gs : List (List Category)) :
    runGroups fetch gs =
      ((gs.takeWhile (fun g => g.all fetch)).flatten,
       gs.all (fun g => g.all fetch)) := by
  induction gs with
  | nil => rfl
  | cons g rest ih =>
    simp only [runGroups, List.takeWhile, List.all]
    cases h : g.all fetch <;> simp [h, ih]

/-- C2 counterexample: an adapter that raises exactly on `visa` (all other
categories succeed, in particular `attractions`).  The destination ends
`partial` with `visa` absent as claimed — but `weather` is its only data
key: `attractions` and every later category were skipped, not "still
researched and populated". -/
theorem research_aborts_after_failure_counterexample :
    _research_single_destination (fun c => decide (c ≠ Category.visa))
        false false false =
      ⟨[Category.weather], "partial", true⟩ ∧
    (fun c => decide (c ≠ Category.visa)) Category.attractions = true ∧
    Category.attractions ∉
      (_research_single_destination (fun c => decide (c ≠ Category.visa))
        false false false).dataKeys := by
  refine ⟨by decide, by decide, by decide⟩

/-- C2 (amended): the category phases run inside one shared `try`.  When
every phase succeeds the destination is `completed` with every phase key
present (plus `context`, plus `web_research` when enabled and successful).
When some phase fails, the destination's status becomes `partial` with an
error recorded, its data holds exactly the phases before the first failing
one — so the failing category is absent, earlier categories stay
populated, and later categories are skipped rather than researched. -/
theorem research_single_destination_try_semantics (fetch : Category → Bool)
    (o n w : Bool) :
    ((destGroups o n).all (fun g => g.all fetch) = true →
      (_research_single_destination fetch o n w).status = "completed" ∧
      (_research_single_destination fetch o n w).hasError = false ∧
      (_research_single_destination fetch o n w).dataKeys =
        (destGroups o n).flatten ++ [Category.context]
          ++ (if w && fetch Category.web_research then [Category.web_research]
              else [])) ∧
    ((destGroups o n).all (fun g => g.all fetch) = false →
      (_research_single_destination fetch o n w).status = "partial" ∧
      (_research_single_destination fetch o n w).hasError = true ∧
      (_research_single_destination fetch o n w).dataKeys =
        ((destGroups o n).takeWhile (fun g => g.all fetch)).flatten ∧
      (∀ c, fetch c = false →
        c ∉ (_research_single_destination fetch o n w).dataKeys)) := by
  constructor
  · intro hall
    have hr := runGroups_eq fetch (destGroups o n)
    have htw : (destGroups o n).takeWhile (fun g => g.all fetch) = destGroups o n := by
      apply List.takeWhile_eq_self_iff.mpr
      intro g hg
      exact (List.all_eq_true.mp hall) g hg
    have hout : _research_single_destination fetch o n w =
        ⟨(destGroups o n).flatten ++ [Category.context]
          ++ (if w && fetch Category.web_research then [Category.web_research]
              else []), "completed", false⟩ := by
      simp [_research_single_destination, hr, hall, htw]
    rw [hout]
    exact ⟨rfl, rfl, rfl⟩
  · intro hfail
    have hr := runGroups_eq fetch (destGroups o n)
    have hout : _research_single_destination fetch o n w =
        ⟨((destGroups o n).takeWhile (fun g => g.all fetch)).flatten,
          "partial", true⟩ := by
      simp [_research_single_destination, hr, hfail]
    rw [hout]
    refine ⟨rfl, rfl, rfl, ?_⟩
    intro c hc hmem
    obtain ⟨g, hg, hcg⟩ := List.mem_flatten.mp hmem
    have hgp := List.mem_takeWhile_imp hg
    have := (List.all_eq_true.mp hgp) c hcg
    rw [hc] at this
    exact Bool.false_ne_true this

/-- Closed instance of `research_single_destination_try_semantics`: with
every adapter succeeding (and no optional phases), the destination ends
`completed` with every phase key plus `context` present. -/
theorem research_single_destination_try_semantics_witness :
    (_research_single_destination (fun _ => true) false false false).status
        = "completed" ∧
    (_research_single_destination (fun _ => true) false false false).hasError
        = false ∧
    (_research_single_destination (fun _ => true) false false false).dataKeys =
      (destGroups false false).flatten ++ [Category.context] ++ [] := by
  have h := (research_single_destination_try_semantics (fun _ => true)
    false false false).1 (by decide)
  simpa using h

/-! ### Destination suggestion (`_suggest_destinations`, claim C9)

The method (lines 257-293) collects a `set` of suggestions from the
interest table and the budget table, takes at most the first 8, and falls
back to a fixed 3-destination list when the set is empty.  The Python set
is modelled as a duplicate-free list built in insertion order (set
iteration order is unspecified in Python; none of the proved properties
depend on it). -/

/-- The `destination_map` interest table (lines 264-275). -/
def destination_map : List (String × List String) :=
  [("beach", ["Bali, Indonesia", "Maldives", "Phuket, Thailand",
      "Santorini, Greece", "Maui, Hawaii"]),
   ("mountain", ["Swiss Alps, Switzerland", "Banff, Canada",
      "Queenstown, New Zealand", "Chamonix, France", "Kathmandu, Nepal"]),
   ("city", ["Tokyo, Japan", "Paris, France", "New York, USA",
      "Barcelona, Spain", "Singapore"]),
   ("history", ["Rome, Italy", "Athens, Greece", "Cairo, Egypt",
      "Kyoto, Japan", "Machu Picchu, Peru"]),
   ("nature", ["Costa Rica", "Iceland", "Patagonia, Chile", "Kenya", "Norway"]),
   ("adventure", ["Queenstown, New Zealand", "Interlaken, Switzerland",
      "Moab, USA", "Cape Town, South Africa", "Reykjavik, Iceland"]),
   ("food", ["Tokyo, Japan", "Bangkok, Thailand", "Barcelona, Spain",
      "Mexico City, Mexico", "Lyon, France"]),
   ("culture", ["Marrakech, Morocco", "Istanbul, Turkey", "Varanasi, India",
      "Havana, Cuba", "Prague, Czech Republic"]),
   ("relaxation", ["Bali, Indonesia", "Tulum, Mexico", "Seychelles", "Fiji",
      "Santorini, Greece"]),
   ("nightlife", ["Berlin, Germany", "Amsterdam, Netherlands", "Las Vegas, USA",
      "Rio de Janeiro, Brazil", "Bangkok, Thailand"])]

/-- The `budget_destinations` table (lines 283-288). -/
def budget_destinations : List (String × List String) :=
  [("low", ["Vietnam", "Thailand", "Mexico", "Portugal", "Colombia",
      "Indonesia", "India"]),
   ("moderate", ["Spain", "Greece", "Turkey", "Malaysia", "Czech Republic",
      "Poland", "Argentina"]),
   ("high", ["Japan", "France", "Italy", "Australia", "UAE", "Singapore",
      "South Korea"]),
   ("luxury", ["Switzerland", "Maldives", "Monaco", "Bora Bora", "Seychelles",
      "Dubai, UAE"])]

/-- The fallback returned when both table lookups produce nothing
(line 293). -/
def defaultSuggestions : List String :=
  ["Paris, France", "Tokyo, Japan", "Barcelona, Spain"]

/-- Set insertion (`suggestions.update(...)` adds each element once). -/
def insertNew (acc : List String) (x : String) : List String :=
  if x ∈ acc then acc else acc ++ [x]

/-- The interest-table accumulation loop of `_suggest_destinations`. -/
def interestFold (interests : List String) : List String :=
  interests.foldl (fun acc i =>
    match destination_map.lookup i.toLower with
    | some ds => ds.foldl insertNew acc
    | none => acc) []

/-- `_suggest_destinations` (lines 257-293): union the interest-table rows
for each listed interest with the budget-table row, return the first 8
collected names, or the fixed default list when nothing was collected.
(`weather_preference` is read by the source but never used.) -/
def _suggest_destinations (interests : List String) (budget_level : String) :
    List String :=
  let s1 := interestFold interests
  let s2 :=
    match budget_destinations.lookup budget_level with
    | some ds => ds.foldl insertNew s1
    | none => s1
  if s2 ≠ [] then s2.take 8 else defaultSuggestions

/-- Membership after a fold of `insertNew` comes from the accumulator or
the inserted row. -/
theorem mem_foldl_insertNew (ds : List String) (acc : List String) (x : String)
    (hx : x ∈ ds.foldl insertNew acc) : x ∈ acc ∨ x ∈ ds := by
  induction ds generalizing acc with
  | nil => exact Or.inl hx
  | cons d rest ih =>
    simp only [List.foldl] at hx
    rcases ih _ hx with h | h
    · by_cases hd : d ∈ acc
      · simp only [insertNew, if_pos hd] at h
        exact Or.inl h
      · simp only [insertNew, if_neg hd, List.mem_append, List.mem_singleton] at h
        rcases h with h | h
        · exact Or.inl h
        · exact Or.inr (by simp [h])
    · exact Or.inr (List.mem_cons_of_mem _ h)

/-- A successful `List.lookup` returns one of the table's rows. -/
theorem lookup_mem {α β : Type} [BEq α] (l : List (α × β)) (k : α) (v : β)
    (h : l.lookup k = some v) : v ∈ l.map Prod.snd := by
  induction l with
  | nil => simp [List.lookup] at h
  | cons p rest ih =>
    rw [List.lookup] at h
    cases hk : k == p.1
    · rw [hk] at h
      simp only [List.map, List.mem_cons]
      exact Or.inr (ih h)
    · rw [hk] at h
      cases h
      simp

/-- Taking the first 8 of a non-empty list is non-empty. -/
theorem take8_ne_nil (l : List String) (h : l ≠ []) : l.take 8 ≠ [] := by
  cases l with
  | nil => exact absurd rfl h
  | cons a t => simp

/-- Every name the interest loop collects comes from some interest-table
row. -/
theorem mem_interestFold (interests : List String) (x : String)
    (hx : x ∈ interestFold interests) :
    x ∈ (destination_map.map Prod.snd).flatten := by
  suffices h : ∀ (ints : List String) (acc : List String),
      x ∈ ints.foldl (fun acc i =>
        match destination_map.lookup i.toLower with
        | some ds => ds.foldl insertNew acc
        | none => acc) acc →
      x ∈ acc ∨ x ∈ (destination_map.map Prod.snd).flatten by
    rcases h interests [] hx with h0 | h0
    · simp at h0
    · exact h0
  intro ints
  induction ints with
  | nil => exact fun acc h => Or.inl h
  | cons i rest ih =>
    intro acc h
    simp only [List.foldl] at h
    rcases hl : destination_map.lookup i.toLower with _ | ds
    · rw [hl] at h
      exact ih _ h
    · rw [hl] at h
      rcases ih _ h with h0 | h0
      · rcases mem_foldl_insertNew ds acc x h0 with h1 | h1
        · exact Or.inl h1
        · refine Or.inr (List.mem_flatten.mpr ⟨ds, lookup_mem _ _ _ hl, h1⟩)
      · exact Or.inr h0

/-- C9: for every interest list and budget level, `_suggest_destinations`
returns a non-empty list of at most 8 names, each drawn from the
interest-table or budget-table rows, falling back to the fixed
3-destination default exactly when both lookups produced nothing. -/
theorem suggest_destinations_spec (interests : List String)
    (budget_level : String) :
    _suggest_destinations interests budget_level ≠ [] ∧
    (_suggest_destinations interests budget_level).length ≤ 8 ∧
    (∀ x ∈ _suggest_destinations interests budget_level,
      x ∈ (destination_map.map Prod.snd).flatten
        ∨ x ∈ (budget_destinations.map Prod.snd).flatten
        ∨ x ∈ defaultSuggestions) := by
  simp only [_suggest_destinations]
  set s1 := interestFold interests with hs1
  have hmem1 : ∀ x ∈ s1, x ∈ (destination_map.map Prod.snd).flatten :=
    fun x hx => mem_interestFold interests x hx
  rcases hl : budget_destinations.lookup budget_level with _ | ds
  · simp only []
    by_cases h2 : s1 ≠ []
    · rw [if_pos h2]
      refine ⟨take8_ne_nil s1 h2, ?_, ?_⟩
      · rw [List.length_take]
        exact min_le_left _ _
      · intro x hx
        exact Or.inl (hmem1 x (List.take_subset _ _ hx))
    · rw [if_neg h2]
      exact ⟨by decide, by decide, fun x hx => Or.inr (Or.inr hx)⟩
  · simp only []
    set s2 := ds.foldl insertNew s1 with hs2
    have hmem2 : ∀ x ∈ s2, x ∈ (destination_map.map Prod.snd).flatten
        ∨ x ∈ (budget_destinations.map Prod.snd).flatten := by
      intro x hx
      rcases mem_foldl_insertNew ds s1 x hx with h | h
      · exact Or.inl (hmem1 x h)
      · exact Or.inr (List.mem_flatten.mpr ⟨ds, lookup_mem _ _ _ hl, h⟩)
    by_cases h2 : s2 ≠ []
    · rw [if_pos h2]
      refine ⟨take8_ne_nil s2 h2, ?_, ?_⟩
      · rw [List.length_take]
        exact min_le_left _ _
      · intro x hx
        rcases hmem2 x (List.take_subset _ _ hx) with h | h
        · exact Or.inl h
        · exact Or.inr (Or.inl h)
    · rw [if_neg h2]
      exact ⟨by decide, by decide, fun x hx => Or.inr (Or.inr hx)⟩

/-- Closed instance of `suggest_destinations_spec`: the beach interest with
a low budget yields a non-empty shortlist of at most 8 names. -/
theorem suggest_destinations_spec_witness :
    _suggest_destinations ["beach"] "low" ≠ [] ∧
    (_suggest_destinations ["beach"] "low").length ≤ 8 :=
  ⟨(suggest_destinations_spec ["beach"] "low").1,
   (suggest_destinations_spec ["beach"] "low").2.1⟩

/-! ### Researched destination data (claims C10 and C4)

A destination research record is the dict built by
`_research_single_destination`: a name, a status string, an
`overall_score` key (present only when research completed) and the `data`
map.  Each category value is modelled by a record of exactly the fields
the downstream consumers (`_calculate_destination_score`,
`_generate_comparison`, `_generate_recommendations`) read; an `Option`
field models a possibly missing dict key. -/

/-- The `weather` dict fields read downstream. -/
structure AgentWeather where
  temperature_c : Option ℚ
deriving DecidableEq

/-- The `visa` dict fields read downstream (`.get` defaults make every
field optional). -/
structure AgentVisa where
  visa_required : Option Bool
  evisa_available : Option Bool
  visa_on_arrival : Option Bool
deriving DecidableEq

/-- The `affordability` dict fields read downstream. -/
structure AgentAffordability where
  budget_fit : Option String
  estimated_total_cost : Option String
deriving DecidableEq

/-- One entry of the `flights` list (only `price` is read, default 1000). -/
structure AgentFlight where
  price : Option ℚ
deriving DecidableEq

/-- One entry of the `attractions` list as read downstream (`name` for
highlights, the `kid_friendly` tag set for family trips). -/
structure AgentAttraction where
  name : String
  kid_friendly : Option Bool
deriving DecidableEq

/-- The `context` metadata dict stored by `_research_single_destination`
(lines 407-413). -/
structure ContextData where
  traveling_with : String
  has_kids : Bool
  pace_preference : String
  accessibility_needs : List String
  dietary_restrictions : List String
deriving DecidableEq

/-- The `data` map of a destination research record, restricted to the
keys its consumers read.  `events` keeps only the number of event entries
(only `len(data["events"])` is ever read); `nightlife` keeps only key
presence. -/
structure AgentData where
  weather : Option AgentWeather
  visa : Option AgentVisa
  attractions : Option (List AgentAttraction)
  events : Option ℕ
  affordability : Option AgentAffordability
  flights : Option (List AgentFlight)
  nightlife : Bool
  context : Option ContextData
deriving DecidableEq

/-- An `AgentData` with no keys (the `.get("data", {})` default). -/
def AgentData.empty : AgentData :=
  ⟨none, none, none, none, none, none, false, none⟩

/-- One destination research record as consumed by the aggregation
helpers. -/
structure DestResearch where
  name : String
  status : String
  overall_score : Option ℚ
  data : AgentData
deriving DecidableEq

/-- Python `min` over a non-empty list (`min(f.get("price", 1000) for f in
flights)`); the empty case is never reached because the caller guards on a
non-empty list. -/
def pyMin : List ℚ → ℚ
  | [] => 0
  | [x] => x
  | x :: y :: rest => min x (pyMin (y :: rest))

/-- The weather block of `_calculate_destination_score` (lines 592-599):
+20 for 18-28°C, +10 for 10-35°C, temperature defaulting to 20. -/
def weather_bonus (data : AgentData) : ℚ :=
  match data.weather with
  | some w =>
    let temp := w.temperature_c.getD 20
    if 18 ≤ temp ∧ temp ≤ 28 then 20
    else if 10 ≤ temp ∧ temp ≤ 35 then 10
    else 0
  | none => 0

/-- The visa block (lines 601-609): +15 when `visa_required` is the
explicit `False`, else +10 for a truthy `evisa_available`, else +8 for a
truthy `visa_on_arrival`. -/
def visa_bonus (data : AgentData) : ℚ :=
  match data.visa with
  | some v =>
    if v.visa_required = some false then 15
    else if v.evisa_available = some true then 10
    else if v.visa_on_arrival = some true then 8
    else 0
  | none => 0

/-- The attractions block (lines 611-614): 2 per attraction capped at
20. -/
def attractions_bonus (data : AgentData) : ℚ :=
  match data.attractions with
  | some l => min 20 ((l.length : ℚ) * 2)
  | none => 0

/-- The affordability block (lines 616-622): +15 within budget, +8
slightly over. -/
def affordability_bonus (data : AgentData) : ℚ :=
  match data.affordability with
  | some a =>
    if a.budget_fit = some "within_budget" then 15
    else if a.budget_fit = some "slightly_over" then 8
    else 0
  | none => 0

/-- The events block (lines 624-627): 2 per event capped at 10. -/
def events_bonus (data : AgentData) : ℚ :=
  match data.events with
  | some n => min 10 ((n : ℚ) * 2)
  | none => 0

/-- The flights block (lines 629-636): +10 when the cheapest price is
under 300, +5 under 600; only when the key holds a non-empty list. -/
def flights_bonus (data : AgentData) : ℚ :=
  match data.flights with
  | some fs =>
    if fs ≠ [] then
      let cheapest := pyMin (fs.map (fun f => f.price.getD 1000))
      if cheapest < 300 then 10 else if cheapest < 600 then 5 else 0
    else 0
  | none => 0

/-- `_calculate_destination_score` (lines 587-638): a base of 50, the six
additive category bonuses (accumulated with `score +=` in the source),
capped at 100.  The `interests` parameter of the Python method is unused
in its body. -/
def _calculate_destination_score (result : DestResearch)
    (interests : List String) : ℚ :=
  min 100 (50 + weather_bonus result.data + visa_bonus result.data
    + attractions_bonus result.data + affordability_bonus result.data
    + events_bonus result.data + flights_bonus result.data)

theorem weather_bonus_nonneg (d : AgentData) : 0 ≤ weather_bonus d := by
  rcases d with ⟨w, _, _, _, _, _, _, _⟩
  rcases w with _ | w <;> simp only [weather_bonus] <;> (try split_ifs) <;> norm_num

theorem visa_bonus_nonneg (d : AgentData) : 0 ≤ visa_bonus d := by
  rcases d with ⟨_, v, _, _, _, _, _, _⟩
  rcases v with _ | v <;> simp only [visa_bonus] <;> (try split_ifs) <;> norm_num

theorem attractions_bonus_nonneg (d : AgentData) : 0 ≤ attractions_bonus d := by
  rcases d with ⟨_, _, l, _, _, _, _, _⟩
  rcases l with _ | l
  · simp [attractions_bonus]
  · simp only [attractions_bonus]
    exact le_min (by norm_num) (by positivity)

theorem affordability_bonus_nonneg (d : AgentData) :
    0 ≤ affordability_bonus d := by
  rcases d with ⟨_, _, _, _, a, _, _, _⟩
  rcases a with _ | a <;> simp only [affordability_bonus] <;>
    (try split_ifs) <;> norm_num

theorem events_bonus_nonneg (d : AgentData) : 0 ≤ events_bonus d := by
  rcases d with ⟨_, _, _, n, _, _, _, _⟩
  rcases n with _ | n
  · simp [events_bonus]
  · simp only [events_bonus]
    exact le_min (by norm_num) (by positivity)

theorem flights_bonus_nonneg (d : AgentData) : 0 ≤ flights_bonus d := by
  rcases d with ⟨_, _, _, _, _, fs, _, _⟩
  rcases fs with _ | fs <;> simp only [flights_bonus] <;> (try split_ifs) <;> norm_num

/-- C10: the in-flow destination score of a research job always lies in
[50, 100]: the base of 50 only ever gains non-negative category bonuses
(an absent category contributes 0) and the sum is capped at 100. -/
theorem destination_score_in_range (result : DestResearch)
    (interests : List String) :
    50 ≤ _calculate_destination_score result interests ∧
    _calculate_destination_score result interests ≤ 100 := by
  constructor
  · refine le_min (by norm_num) ?_
    have h1 := weather_bonus_nonneg result.data
    have h2 := visa_bonus_nonneg result.data
    have h3 := attractions_bonus_nonneg result.data
    have h4 := affordability_bonus_nonneg result.data
    have h5 := events_bonus_nonneg result.data
    have h6 := flights_bonus_nonneg result.data
    linarith
  · exact min_le_left _ _

/-! ### Aggregation (`_generate_comparison`, `_generate_recommendations`,
claim C4) -/

/-- One row of the comparison table (lines 650-658): projections of the
destination's data with the source's `.get` defaults (`weather = none`
models the `"N/A"` placeholder). -/
structure ComparisonRow where
  name : String
  overall_score : ℚ
  weather : Option ℚ
  visa_required : Bool
  attractions_count : ℕ
  budget_fit : String
  events_count : ℕ
deriving DecidableEq

/-- Builds the comparison row of one destination (lines 650-658). -/
def comparisonRow (dest : DestResearch) : ComparisonRow :=
  ⟨dest.name,
   dest.overall_score.getD 0,
   dest.data.weather.bind (fun w => w.temperature_c),
   ((dest.data.visa.bind (fun v => v.visa_required)).getD true),
   (dest.data.attractions.getD []).length,
   ((dest.data.affordability.bind (fun a => a.budget_fit)).getD "unknown"),
   dest.data.events.getD 0⟩

/-- The comparison table (`categories` header plus one row per
destination). -/
structure Comparison where
  categories : List String
  destinations : List ComparisonRow
deriving DecidableEq

/-- `_generate_comparison` (lines 640-664): one row per destination whose
`status` equals `"completed"`, then an in-place stable sort by
`overall_score` descending (Python `list.sort(key=..., reverse=True)`,
modelled by a stable merge sort with the reversed comparison). -/
def _generate_comparison (destinations : List DestResearch) : Comparison :=
  ⟨["Overall Score", "Weather", "Visa", "Attractions", "Affordability", "Events"],
   ((destinations.filter (fun d => d.status == "completed")).map comparisonRow).mergeSort
     (fun a b => decide (b.overall_score ≤ a.overall_score))⟩

/-- The personalised reasons attached to a recommendation (lines 686-720).
Each constructor stands for one human-readable reason string of the
source; numeric payloads carry the interpolated values. -/
inductive Reason
  | excellent_overall
  | no_visa_required
  | great_weather (temp : ℚ)
  | fits_budget
  | events_during_stay (count : ℕ)
  | kid_friendly_attractions (count : ℕ)
  | romantic_getaway
  | nightlife_for_groups
  | dietary_needs (restrictions : List String)
  | accessibility_info
  | relaxed_pace
  | busy_pace
deriving DecidableEq

/-- The reason list computed for one destination (lines 686-720),
condition by condition in source order.  `ctx.get` defaults follow the
source (`traveling_with = "solo"`, flags falsy). -/
def recommendationReasons (dest : DestResearch) : List Reason :=
  let data := dest.data
  let traveling_with := (data.context.map (fun c => c.traveling_with)).getD "solo"
  let has_kids := (data.context.map (fun c => c.has_kids)).getD false
  let dietary := (data.context.map (fun c => c.dietary_restrictions)).getD []
  let accessibility := (data.context.map (fun c => c.accessibility_needs)).getD []
  let pace := (data.context.map (fun c => c.pace_preference)).getD "moderate"
  (if 80 < dest.overall_score.getD 0 then [Reason.excellent_overall] else [])
  ++ (match data.visa with
      | some v => if v.visa_required = some true then [] else [Reason.no_visa_required]
      | none => [])
  ++ (match data.weather with
      | some w =>
        let temp := w.temperature_c.getD 20
        if 20 ≤ temp ∧ temp ≤ 30 then [Reason.great_weather temp] else []
      | none => [])
  ++ (match data.affordability with
      | some a => if a.budget_fit = some "within_budget" then [Reason.fits_budget] else []
      | none => [])
  ++ (match data.events with
      | some n => if 0 < n then [Reason.events_during_stay n] else []
      | none => [])
  ++ (if traveling_with = "family" ∧ has_kids then
        let kid_friendly := (data.attractions.getD []).filter
          (fun a => a.kid_friendly.getD false)
        if kid_friendly ≠ [] then
          [Reason.kid_friendly_attractions kid_friendly.length]
        else []
      else [])
  ++ (if traveling_with = "couple" then [Reason.romantic_getaway] else [])
  ++ (if traveling_with = "group" ∧ data.nightlife then
        [Reason.nightlife_for_groups] else [])
  ++ (if dietary ≠ [] ∧ ¬("none" ∈ dietary.map (fun d => d.toLower)) then
        [Reason.dietary_needs dietary] else [])
  ++ (if accessibility ≠ [] ∧ ¬("none" ∈ accessibility.map (fun a => a.toLower)) then
        [Reason.accessibility_info] else [])
  ++ (if pace = "relaxed" then [Reason.relaxed_pace]
      else if pace = "busy" then [Reason.busy_pace] else [])

/-- One recommendation entry (lines 722-729).  The `highlights` field of
the source (a digest of attraction/event/hotel/flight names and prices for
display) is not modelled; no claim reads it. -/
structure Recommendation where
  rank : ℕ
  destination : String
  score : ℚ
  reasons : List Reason
  estimated_cost : Option String
deriving DecidableEq

/-- `_generate_recommendations` (lines 666-731): keep the destinations
whose `status` equals `"completed"`, sort by `overall_score` descending
(stable), and annotate the top 3 with rank, score, reasons and estimated
cost.  The Python `preferences` parameter is unused in the body and
omitted. -/
def _generate_recommendations (destinations : List DestResearch) :
    List Recommendation :=
  let sorted_dests :=
    (destinations.filter (fun d => d.status == "completed")).mergeSort
      (fun a b => decide ((b.overall_score.getD 0) ≤ (a.overall_score.getD 0)))
  ((sorted_dests.take 3).enum).map (fun p =>
    ⟨p.1 + 1, p.2.name, p.2.overall_score.getD 0, recommendationReasons p.2,
     p.2.data.affordability.bind (fun a => a.estimated_total_cost)⟩)

/-- C4 counterexample: a single destination that ended `partial`.  The
claim puts one comparison row and one recommendation for it; the code
filters on `status == "completed"` alone, so both lists are empty. -/
theorem comparison_excludes_unfinished_counterexample :
    (⟨"Lisbon", "partial", none, AgentData.empty⟩ : DestResearch).status
        = "partial" ∧
    (_generate_comparison
        [⟨"Lisbon", "partial", none, AgentData.empty⟩]).destinations = [] ∧
    _generate_recommendations
        [⟨"Lisbon", "partial", none, AgentData.empty⟩] = [] := by
  refine ⟨rfl, ?_, ?_⟩ <;>
    simp [_generate_comparison, _generate_recommendations]

/-- C4 (amended): the comparison table has one row per destination whose
status is exactly `completed` (partial and failed destinations are
excluded), the rows are sorted by overall score descending, and every row
is the projection of such a completed destination; the recommendations
are likewise drawn from the completed destinations only — the top 3 by
overall score, each naming a completed destination. -/
theorem generate_comparison_spec (dests : List DestResearch) :
    (_generate_comparison dests).destinations.length =
      (dests.filter (fun d => d.status == "completed")).length ∧
    (_generate_comparison dests).destinations.Pairwise
      (fun a b => b.overall_score ≤ a.overall_score) ∧
    (∀ r ∈ (_generate_comparison dests).destinations,
      ∃ d ∈ dests, d.status = "completed" ∧ r = comparisonRow d) ∧
    (_generate_recommendations dests).length =
      min 3 (dests.filter (fun d => d.status == "completed")).length ∧
    (∀ rec ∈ _generate_recommendations dests,
      ∃ d ∈ dests, d.status = "completed" ∧
        rec.destination = d.name ∧ rec.score = d.overall_score.getD 0) := by
  refine ⟨?_, ?_, ?_, ?_, ?_⟩
  · simp [_generate_comparison]
  · have h := @List.sorted_mergeSort ComparisonRow
      (fun a b => decide (b.overall_score ≤ a.overall_score))
      (by intro a b c hab hbc
          simp only [decide_eq_true_eq] at *
          linarith)
      (by intro a b
          simp only [Bool.or_eq_true, decide_eq_true_eq]
          exact le_total b.overall_score a.overall_score)
      ((dests.filter (fun d => d.status == "completed")).map comparisonRow)
    refine List.Pairwise.imp ?_ h
    intro a b hab
    simpa using hab
  · intro r hr
    simp only [_generate_comparison, List.mem_mergeSort, List.mem_map,
      List.mem_filter] at hr
    obtain ⟨d, ⟨hd, hst⟩, rfl⟩ := hr
    exact ⟨d, hd, by simpa using hst, rfl⟩
  · simp only [_generate_recommendations, List.length_map, List.enum_length,
      List.length_take, List.length_mergeSort]
  · intro rec hrec
    simp only [_generate_recommendations, List.mem_map] at hrec
    obtain ⟨p, hmem, rfl⟩ := hrec
    have hd2 : p.2 ∈ ((dests.filter (fun d => d.status == "completed")).mergeSort
        (fun a b => decide ((b.overall_score.getD 0) ≤ (a.overall_score.getD 0)))).take 3 := by
      have hsnd := List.mem_map_of_mem Prod.snd hmem
      rwa [List.enum_map_snd] at hsnd
    have hd3 := List.mem_mergeSort.mp (List.take_subset _ _ hd2)
    have hd4 := List.mem_filter.mp hd3
    exact ⟨p.2, hd4.1, by simpa using hd4.2, rfl, rfl⟩

/-- Closed instance of `generate_comparison_spec`: one completed
destination yields exactly one comparison row and one recommendation. -/
theorem generate_comparison_spec_witness :
    (_generate_comparison
        [⟨"Bali", "completed", some 85, AgentData.empty⟩]).destinations.length = 1 ∧
    (_generate_recommendations
        [⟨"Bali", "completed", some 85, AgentData.empty⟩]).length = 1 := by
  have h := generate_comparison_spec [⟨"Bali", "completed", some 85, AgentData.empty⟩]
  refine ⟨?_, ?_⟩
  · rw [h.1]
    rfl
  · rw [h.2.2.2.1]
    rfl

end AutoResearch

end TravelAI
